import Mathlib

/-!
Verification development for the paperg02 repository: a Cloudflare Pages
worker (`src/functions/api/[[path]].js`, current revision: the V8 `onRequest`
with the V10 `handleChatRequest` and the V4 `handleLoginRequest`) together
with the browser front end (`src/public/script.js`, current revision: the
fetch-based `handleLogin`).

The worker is embedded shallowly:

* JSON values are the inductive `Json` (numbers as rationals: every JSON
  numeral denotes a rational; JavaScript float rounding is not modelled,
  which is harmless here because the handlers never do arithmetic on
  numbers, they only test truthiness and stringify).
* JavaScript semantics used by the handlers — truthiness, member access,
  optional chaining, `||`, string coercion — are modelled by small total
  functions.  Member access on `null`/`undefined` throws in JavaScript;
  call sites reached with a possibly-`null` value match on it explicitly
  and route to the enclosing `catch` (a 500 response), as the source does.
* The Cloudflare KV namespace binding is `Option (String → Option String)`
  (`none` = binding missing, mirroring the `!env.KV_NAMESPACE` check).
* The single outbound `fetch` to the LLM API is modelled by an
  `UpstreamResponse` parameter; `.text()` is its `body` and `.json()` is
  `jsonParse` of that text.  Every KV access and every LLM call performed
  by a handler is recorded in an event trace, so frame properties
  ("only this key is touched", "at most one LLM round trip") are theorems
  about the trace.
-/

namespace PaperG

/-- JSON values.  Numbers are rationals (see the header note). -/
inductive Json where
  | null : Json
  | bool : Bool → Json
  | num  : Rat → Json
  | str  : String → Json
  | arr  : List Json → Json
  | obj  : List (String × Json) → Json

/-- A JavaScript value as seen by the handlers: either `undefined` or a
JSON value.  (The handlers only ever see JSON-shaped data plus
`undefined` from missing properties.) -/
inductive JsVal where
  | undefined : JsVal
  | val : Json → JsVal

/-- JavaScript truthiness of a JSON value (`!x` in the source is
`(truthy x) = false`).  `0`, `""`, `false`, `null` are falsy; every
object and array is truthy. -/
def Json.truthy : Json → Bool
  | .null => false
  | .bool b => b
  | .num q => if q = 0 then false else true
  | .str s => if s = "" then false else true
  | .arr _ => true
  | .obj _ => true

/-- Truthiness of a JavaScript value (`undefined` is falsy). -/
def truthyV : JsVal → Bool
  | .undefined => false
  | .val j => j.truthy

/-- First-match lookup in an object's field list.  `jsonParse` below keeps
at most one entry per key (later duplicates overwrite), matching
`JSON.parse`. -/
def lookupField : List (String × Json) → String → Option Json
  | [], _ => none
  | p :: ps, k => if p.1 = k then some p.2 else lookupField ps k

/-- JavaScript member access `x.k` for `x` not `null`/`undefined`:
objects yield the property or `undefined`; primitives and arrays have no
such named own property, so they yield `undefined`.  (Access on `null`
throws; call sites handle that case before calling this.) -/
def jsGet : Json → String → JsVal
  | .obj fs, k => match lookupField fs k with
    | some v => .val v
    | none => .undefined
  | _, _ => .undefined

/-- Optional-chaining member access `x?.k`: `undefined`/`null` short-
circuit to `undefined` instead of throwing. -/
def optChainGet : JsVal → String → JsVal
  | .undefined, _ => .undefined
  | .val .null, _ => .undefined
  | .val j, k => jsGet j k

/-- Optional-chaining index access `x?.[i]`: arrays index their elements,
strings index their characters, everything else yields `undefined`. -/
def optChainIndex : JsVal → Nat → JsVal
  | .undefined, _ => .undefined
  | .val .null, _ => .undefined
  | .val (.arr xs), i => match xs.get? i with
    | some x => .val x
    | none => .undefined
  | .val (.str s), i => match s.toList.get? i with
    | some c => .val (.str (String.mk [c]))
    | none => .undefined
  | .val _, _ => .undefined

/-- JavaScript `||`: the first operand if truthy, otherwise the second. -/
def orJs (a b : JsVal) : JsVal := if truthyV a then a else b

/-- Rendering of a rational in a string coercion.  Integers print as in
JavaScript; for non-integers the `num/den` form is used (the handlers
only coerce numbers inside error-detail strings, where the exact decimal
formatting is not load-bearing for any claim). -/
def ratToDisplay (q : Rat) : String :=
  if q.den = 1 then toString q.num else toString q.num ++ "/" ++ toString q.den

mutual
/-- JavaScript string coercion `String(x)` / template-literal
interpolation of a JSON value. -/
def jsToString : Json → String
  | .null => "null"
  | .bool b => if b then "true" else "false"
  | .num q => ratToDisplay q
  | .str s => s
  | .arr xs => jsArrElems xs
  | .obj _ => "[object Object]"

/-- `Array.prototype.join(",")`: elements coerce recursively, except that
`null` elements coerce to the empty string. -/
def jsArrElems : List Json → String
  | [] => ""
  | [.null] => ""
  | [x] => jsToString x
  | .null :: xs => "," ++ jsArrElems xs
  | x :: xs => jsToString x ++ "," ++ jsArrElems xs
end

/-- String coercion of a JavaScript value (`undefined` prints as
"undefined"). -/
def jsToStringV : JsVal → String
  | .undefined => "undefined"
  | .val j => jsToString j

/-- `Object.keys`: own enumerable keys — field names of an object, index
strings of an array or string, nothing for other primitives.  (Callers
guard against `null`, on which `Object.keys` throws.) -/
def jsObjectKeys : Json → List String
  | .obj fs => fs.map (fun p => p.1)
  | .arr xs => (List.range xs.length).map (fun i => toString i)
  | .str s => (List.range s.length).map (fun i => toString i)
  | _ => []

/-! ### Characters written by code point

A few characters are written via `Char.ofNat` so that quotes, braces and
the backslash never appear as character literals. -/

/-- The double-quote character. -/
def quoteD : Char := Char.ofNat 34

/-- The single-quote character. -/
def quoteS : Char := Char.ofNat 39

/-- The backslash character. -/
def backslashC : Char := Char.ofNat 92

/-- The opening curly brace. -/
def lbrace : Char := Char.ofNat 123

/-- The closing curly brace. -/
def rbrace : Char := Char.ofNat 125

/-! ### String helpers (JavaScript string methods used by the source) -/

/-- Does `pat` occur at the head of `l`? -/
def subAt : List Char → List Char → Bool
  | [], _ => true
  | _ :: _, [] => false
  | p :: ps, c :: cs => p = c && subAt ps cs

/-- Does `pat` occur anywhere in `l`? -/
def hasSub (pat : List Char) : List Char → Bool
  | [] => pat.isEmpty
  | c :: cs => subAt pat (c :: cs) || hasSub pat cs

/-- JavaScript `s.includes(pat)`. -/
def includesSubstr (s pat : String) : Bool := hasSub pat.toList s.toList

/-- Index of the first occurrence of `c` (JavaScript `indexOf`, with
`none` for `-1`). -/
def idxOfChar (c : Char) : List Char → Option Nat
  | [] => none
  | x :: xs => if x = c then some 0 else (idxOfChar c xs).map (· + 1)

/-- Index of the last occurrence of `c` (JavaScript `lastIndexOf`, with
`none` for `-1`). -/
def lastIdxOfChar (c : Char) (l : List Char) : Option Nat :=
  (idxOfChar c l.reverse).map (fun i => l.length - 1 - i)

/-- `/^\d{10}$/.test s`: exactly ten decimal digits
(`src/public/script.js`, `handleLogin`). -/
def isTenDigitCode (s : String) : Bool :=
  s.length = 10 && s.toList.all (fun c => c.isDigit)

/-- JavaScript `String.prototype.trim` whitespace: ASCII whitespace plus
the no-break space, BOM and the line/paragraph separators. -/
def isTrimWs (c : Char) : Bool :=
  c = ' ' || c = '\t' || c = '\n' || c = '\r' || c = Char.ofNat 12 ||
    c = Char.ofNat 11 || c = Char.ofNat 160 || c = Char.ofNat 65279 ||
    c = Char.ofNat 8232 || c = Char.ofNat 8233

/-- JavaScript `s.trim()`. -/
def jsTrim (s : String) : String :=
  String.mk (((s.toList.dropWhile isTrimWs).reverse.dropWhile isTrimWs).reverse)

/-- `s.startsWith pat` on code points. -/
def strStartsWith (s pat : String) : Bool := subAt pat.toList s.toList

/-- Split at the first occurrence of `pat`: the part before it and the
part after it. -/
def splitAtSub (pat : List Char) : List Char → Option (List Char × List Char)
  | [] => if pat.isEmpty then some ([], []) else none
  | c :: cs =>
    if subAt pat (c :: cs) then some ([], (c :: cs).drop pat.length)
    else match splitAtSub pat cs with
      | some (pre, post) => some (c :: pre, post)
      | none => none

/-! ### The message cleaning of `handleChatRequest` (V10, lines 186-209)

Three global regex replacements followed by a length-based revert.  Each
replacement is implemented as the left-to-right scan the JavaScript
regex engine performs; `jsTrim` stands in for JavaScript `trim`. -/

/-- Drop everything up to and including the first closing angle bracket;
`none` if there is none.  This is the tail of a `/<[^>]*>/` match. -/
def dropThroughGt : List Char → Option (List Char)
  | [] => none
  | c :: cs => if c = '>' then some cs else dropThroughGt cs

/-- Fuel-based scan for the global replacement of `/<[^>]*>/g` by the
empty string: at a `<` with a later `>`, the match runs to the first
such `>`.  One fuel unit is spent per step while the input shrinks by at
least one character per step, so fuel = input length (as supplied by
`stripTags`) never runs out; the out-of-fuel branch is unreachable. -/
def stripTagsF : Nat → List Char → List Char
  | 0, l => l
  | _ + 1, [] => []
  | f + 1, c :: cs =>
    if c = '<' then
      match dropThroughGt cs with
      | some rest => stripTagsF f rest
      | none => c :: stripTagsF f cs
    else c :: stripTagsF f cs

/-- Global replacement of `/<[^>]*>/g` by the empty string. -/
def stripTags (l : List Char) : List Char := stripTagsF l.length l

/-- Case-insensitive literal match: consume `pat` from the head of `l`. -/
def matchCI : List Char → List Char → Option (List Char)
  | [], rest => some rest
  | _ :: _, [] => none
  | p :: ps, c :: cs => if p.toLower = c.toLower then matchCI ps cs else none

/-- Is `c` one of the two quote characters (the regex class `["']`)? -/
def isQuoteChar (c : Char) : Bool := c = quoteD || c = quoteS

/-- Consume `[^"']*["']`: everything up to and including the next quote. -/
def matchQuotedEnd : List Char → Option (List Char)
  | [] => none
  | c :: cs => if isQuoteChar c then some cs else matchQuotedEnd cs

/-- Consume `["'][^"']*["']`. -/
def matchQuoted : List Char → Option (List Char)
  | [] => none
  | c :: cs => if isQuoteChar c then matchQuotedEnd cs else none

/-- The regex class `\s` (ASCII part). -/
def isJsWs (c : Char) : Bool :=
  c = ' ' || c = '\t' || c = '\n' || c = '\r' || c = Char.ofNat 12 || c = Char.ofNat 11

/-- Try to match `/name=["'][^"']*["']\s*content=["'][^"']*["']/i` at the
head of `l`, returning the remainder after the match. -/
def matchNamePat (l : List Char) : Option (List Char) :=
  (matchCI "name=".toList l).bind fun r1 =>
  (matchQuoted r1).bind fun r2 =>
  (matchCI "content=".toList (r2.dropWhile isJsWs)).bind fun r4 =>
  matchQuoted r4

/-- Fuel-based scan for the global replacement of the
`name="…" content="…"` pattern by the empty string (fuel as in
`stripTagsF`: a match always consumes at least one character). -/
def stripNamePatF : Nat → List Char → List Char
  | 0, l => l
  | _ + 1, [] => []
  | f + 1, c :: cs =>
    match matchNamePat (c :: cs) with
    | some rest => stripNamePatF f rest
    | none => c :: stripNamePatF f cs

/-- Global replacement of the `name="…" content="…"` pattern by the
empty string. -/
def stripNamePat (l : List Char) : List Char := stripNamePatF l.length l

/-- Fuel-based scan for the global replacement of `/\n{3,}/g` by two
newlines: runs of three or more newlines collapse to two, shorter runs
are kept (fuel as in `stripTagsF`). -/
def collapseNlF : Nat → List Char → List Char
  | 0, l => l
  | _ + 1, [] => []
  | f + 1, c :: cs =>
    if c = '\n' then
      let run := cs.takeWhile (fun x => x = '\n')
      let rest := cs.dropWhile (fun x => x = '\n')
      if 2 ≤ run.length then '\n' :: '\n' :: collapseNlF f rest
      else c :: (run ++ collapseNlF f rest)
    else c :: collapseNlF f cs

/-- Global replacement of `/\n{3,}/g` by two newlines. -/
def collapseNl (l : List Char) : List Char := collapseNlF l.length l

/-- The full message cleaning of `handleChatRequest` V10: strip HTML
tags, strip `name=…content=…` patterns, collapse newline runs, trim; if
the result got shorter than five characters while actually shrinking,
revert to the trimmed original.  (The `catch` around the cleaning is
unreachable for string inputs, which is the only way this function is
called.) -/
def cleanMessage (userMessage : String) : String :=
  let c1 := String.mk (stripTags userMessage.toList)
  let c2 := String.mk (stripNamePat c1.toList)
  let c3 := jsTrim (String.mk (collapseNl c2.toList))
  if c3.length < 5 ∧ c3.length < userMessage.length then jsTrim userMessage else c3

/-! ### `JSON.parse`

A recursive-descent parser for JSON following ECMA-404, used to model
`request.json()`, `llmResponse.json()` and the two explicit `JSON.parse`
calls in `handleChatRequest`.  Numbers are read as exact rationals.
Recursion is by fuel; `jsonParse` supplies `2 * length + 8`, which is an
upper bound on the call depth (each pair of nested calls consumes at
least one input character). -/

/-- JSON insignificant whitespace. -/
def jsonWsChar (c : Char) : Bool := c = ' ' || c = '\t' || c = '\n' || c = '\r'

/-- Skip insignificant whitespace. -/
def skipWs (l : List Char) : List Char := l.dropWhile jsonWsChar

/-- Value of a hexadecimal digit. -/
def hexVal (c : Char) : Option Nat :=
  if c.isDigit then some (c.toNat - 48)
  else if 97 ≤ c.toNat ∧ c.toNat ≤ 102 then some (c.toNat - 87)
  else if 65 ≤ c.toNat ∧ c.toNat ≤ 70 then some (c.toNat - 55)
  else none

/-- Digits to a natural number, most significant first. -/
def digitsToNat (l : List Char) : Nat :=
  l.foldl (fun acc c => acc * 10 + (c.toNat - 48)) 0

/-- Parse the body of a JSON string after the opening quote, handling
the escape sequences of ECMA-404 and rejecting raw control characters.
Returns the decoded string and the input after the closing quote.
(`\uXXXX` escapes decode a single code unit; surrogate-pair merging is
not modelled — no claim involves astral characters.) -/
def parseStrBody : List Char → List Char → Except String (String × List Char)
  | acc, [] => .error "Unterminated string in JSON"
  | acc, c :: cs =>
    if c = quoteD then .ok (String.mk acc.reverse, cs)
    else if c = backslashC then
      match cs with
      | [] => .error "Unterminated string in JSON"
      | e :: cs2 =>
        if e = quoteD then parseStrBody (quoteD :: acc) cs2
        else if e = backslashC then parseStrBody (backslashC :: acc) cs2
        else if e = '/' then parseStrBody ('/' :: acc) cs2
        else if e = 'b' then parseStrBody (Char.ofNat 8 :: acc) cs2
        else if e = 'f' then parseStrBody (Char.ofNat 12 :: acc) cs2
        else if e = 'n' then parseStrBody ('\n' :: acc) cs2
        else if e = 'r' then parseStrBody ('\r' :: acc) cs2
        else if e = 't' then parseStrBody ('\t' :: acc) cs2
        else if e = 'u' then
          match cs2 with
          | h1 :: h2 :: h3 :: h4 :: cs3 =>
            match hexVal h1, hexVal h2, hexVal h3, hexVal h4 with
            | some a, some b, some c3, some d =>
              parseStrBody (Char.ofNat (((a * 16 + b) * 16 + c3) * 16 + d) :: acc) cs3
            | _, _, _, _ => .error "Bad Unicode escape in JSON"
          | _ => .error "Bad Unicode escape in JSON"
        else .error "Bad escaped character in JSON"
    else if c.toNat < 32 then .error "Bad control character in string literal in JSON"
    else parseStrBody (c :: acc) cs

/-- Parse a JSON number (optional minus, integer part without leading
zeros, optional fraction, optional exponent) into a rational. -/
def parseNumber (l : List Char) : Except String (Rat × List Char) :=
  let (neg, l1) : Bool × List Char :=
    match l with
    | c :: cs => if c = '-' then (true, cs) else (false, l)
    | [] => (false, l)
  match l1 with
  | c :: cs =>
    if c.isDigit then
      let (intDigits, r1) : List Char × List Char :=
        if c = '0' then ([c], cs)
        else (l1.takeWhile (fun x => x.isDigit), l1.dropWhile (fun x => x.isDigit))
      let fracStep : Except String (List Char × List Char) :=
        match r1 with
        | d :: r2 =>
          if d = '.' then
            let fd := r2.takeWhile (fun x => x.isDigit)
            if fd.isEmpty then .error "Unterminated fractional number in JSON"
            else .ok (fd, r2.dropWhile (fun x => x.isDigit))
          else .ok ([], r1)
        | [] => .ok ([], r1)
      match fracStep with
      | .error m => .error m
      | .ok (fracDigits, r3) =>
        let expStep : Except String (Bool × List Char × List Char) :=
          match r3 with
          | e :: r4 =>
            if e = 'e' ∨ e = 'E' then
              let (eneg, r5) : Bool × List Char :=
                match r4 with
                | s :: r5 =>
                  if s = '-' then (true, r5)
                  else if s = '+' then (false, r5) else (false, r4)
                | [] => (false, r4)
              let ed := r5.takeWhile (fun x => x.isDigit)
              if ed.isEmpty then .error "Exponent part is missing a number in JSON"
              else .ok (eneg, ed, r5.dropWhile (fun x => x.isDigit))
            else .ok (false, [], r3)
          | [] => .ok (false, [], r3)
        match expStep with
        | .error m => .error m
        | .ok (eneg, expDigits, rest) =>
          let mantissa : Int := (digitsToNat (intDigits ++ fracDigits) : Int)
          let mantissa := if neg then -mantissa else mantissa
          let value : Rat :=
            if fracDigits.isEmpty ∧ expDigits.isEmpty then (mantissa : Rat)
            else
              let base : Rat := mkRat mantissa (10 ^ fracDigits.length)
              let e := digitsToNat expDigits
              if eneg then base / ((10 : Rat) ^ e) else base * ((10 : Rat) ^ e)
          .ok (value, rest)
    else .error "Unexpected token in JSON"
  | [] => .error "Unexpected end of JSON input"

/-- Replace the value of `k` if present (last duplicate wins, as in
`JSON.parse`), otherwise append the field. -/
def insertField (fs : List (String × Json)) (k : String) (v : Json) :
    List (String × Json) :=
  if fs.any (fun p => p.1 = k) then fs.map (fun p => if p.1 = k then (k, v) else p)
  else fs ++ [(k, v)]

mutual
/-- Parse one JSON value, returning it and the remaining input. -/
def parseVal : Nat → List Char → Except String (Json × List Char)
  | 0, _ => .error "JSON nesting too deep"
  | f + 1, l =>
    match skipWs l with
    | [] => .error "Unexpected end of JSON input"
    | c :: cs =>
      if c = 'n' then
        match matchCI "ull".toList cs with
        | some rest => .ok (.null, rest)
        | none => .error "Unexpected token in JSON"
      else if c = 't' then
        match matchCI "rue".toList cs with
        | some rest => .ok (.bool true, rest)
        | none => .error "Unexpected token in JSON"
      else if c = 'f' then
        match matchCI "alse".toList cs with
        | some rest => .ok (.bool false, rest)
        | none => .error "Unexpected token in JSON"
      else if c = quoteD then
        match parseStrBody [] cs with
        | .ok (s, rest) => .ok (.str s, rest)
        | .error m => .error m
      else if c = '[' then
        match skipWs cs with
        | ']' :: rest => .ok (.arr [], rest)
        | _ => parseArrItems f [] cs
      else if c = lbrace then
        match skipWs cs with
        | r :: rest =>
          if r = rbrace then .ok (.obj [], rest)
          else parseObjItems f [] cs
        | [] => .error "Unexpected end of JSON input"
      else if c = '-' ∨ c.isDigit then
        match parseNumber (c :: cs) with
        | .ok (q, rest) => .ok (.num q, rest)
        | .error m => .error m
      else .error "Unexpected token in JSON"

/-- Parse the items of a non-empty array (input starts at the first
item), accumulating in reverse. -/
def parseArrItems : Nat → List Json → List Char → Except String (Json × List Char)
  | 0, _, _ => .error "JSON nesting too deep"
  | f + 1, acc, l =>
    match parseVal f l with
    | .error m => .error m
    | .ok (v, rest) =>
      match skipWs rest with
      | ',' :: rest2 => parseArrItems f (v :: acc) rest2
      | ']' :: rest2 => .ok (.arr (v :: acc).reverse, rest2)
      | _ => .error "Expected comma or closing bracket after array element in JSON"

/-- Parse the members of a non-empty object (input starts at the first
key), accumulating with duplicate keys overwritten. -/
def parseObjItems : Nat → List (String × Json) → List Char →
    Except String (Json × List Char)
  | 0, _, _ => .error "JSON nesting too deep"
  | f + 1, acc, l =>
    match skipWs l with
    | c :: cs =>
      if c = quoteD then
        match parseStrBody [] cs with
        | .error m => .error m
        | .ok (k, rest) =>
          match skipWs rest with
          | ':' :: rest2 =>
            match parseVal f rest2 with
            | .error m => .error m
            | .ok (v, rest3) =>
              match skipWs rest3 with
              | ',' :: rest4 => parseObjItems f (insertField acc k v) rest4
              | r :: rest4 =>
                if r = rbrace then .ok (.obj (insertField acc k v), rest4)
                else .error "Expected comma or closing brace after object member in JSON"
              | [] => .error "Unexpected end of JSON input"
          | _ => .error "Expected colon after property name in JSON"
      else .error "Expected property name in JSON"
    | [] => .error "Unexpected end of JSON input"
end

/-- `JSON.parse`: parse a complete JSON text (trailing whitespace only). -/
def jsonParse (s : String) : Except String Json :=
  match parseVal (2 * s.length + 8) s.toList with
  | .error m => .error m
  | .ok (v, rest) =>
    match skipWs rest with
    | [] => .ok v
    | _ => .error "Unexpected non-whitespace character after JSON data"

/-! ### The worker's data model -/

/-- The worker environment (`env`).  `kv` is the `KV_NAMESPACE` binding
(`none` when not bound).  The four variables are strings with `""`
standing for an unset variable — `!x` and `x || default` cannot tell an
unset variable from an empty one, which is all the source does with
them. -/
structure Env where
  kv : Option (String → Option String)
  apiKeyVar : String
  apiEndpointVar : String
  systemPromptVar : String
  llmModelVar : String

/-- An incoming HTTP request as the handlers observe it: URL path,
method, the `content-type` header (`none` when absent) and the outcome
of `await request.json()` — either the parsed body or a parse error
message. -/
structure HttpRequest where
  pathname : String
  method : String
  contentType : Option String
  body : Except String Json

/-- An HTTP response.  `body` is the JSON value passed to
`JSON.stringify` (for `new Response('Not Found', …)` and the `null` body
of `handleOptions`, the raw text / null is stored directly). -/
structure Response where
  status : Nat
  headers : List (String × String)
  body : Json

/-- Observable side effects of a handler run, in order: every read or
write of the KV namespace and every outbound LLM `fetch`. -/
inductive Event where
  | kvGet (key : String) (result : Option String)
  | kvPut (key : String) (value : String)
  | llmCall (url : String) (payload : Json)

/-- The upstream LLM API's reply to the single `fetch`: its status and
the result of reading its body as text (`.error` models a body read
that throws).  `llmResponse.json()` is `jsonParse` of the text. -/
structure UpstreamResponse where
  status : Nat
  body : Except String String

/-- `llmResponse.ok` — status in 200..299. -/
def upstreamOk (o : UpstreamResponse) : Bool :=
  decide (200 ≤ o.status) && decide (o.status ≤ 299)

/-- `llmResponse.json()`: read the text, then `JSON.parse` it. -/
def upstreamJson (o : UpstreamResponse) : Except String Json :=
  match o.body with
  | .error m => .error m
  | .ok t => jsonParse t

/-- Build the JSON responses the handlers return: status plus a
stringified object body with a `Content-Type: application/json` header. -/
def jsonResp (status : Nat) (fields : List (String × Json)) : Response :=
  { status := status
    headers := [("Content-Type", "application/json")]
    body := .obj fields }

/-- The `content-type` check shared by both handlers:
`request.headers.get('content-type')?.includes('application/json')`
(a missing header gives `undefined`, which is falsy). -/
def ctJson (req : HttpRequest) : Bool :=
  match req.contentType with
  | none => false
  | some s => includesSubstr s "application/json"

/-! ### `handleLoginRequest` (V4, `[[path]].js` lines 114-150) -/

/-- The 500 response of `handleLoginRequest`'s `catch` block.  (In the
model the only reachable throw inside the `try` is property access on a
`null` body; the message text is engine-dependent and not load-bearing.) -/
def loginCaught (m : String) : Response :=
  jsonResp 500 [("error", .str "Failed to process login request."),
                ("details", .str m)]

/-- The validation part of `handleLoginRequest` (lines 116-125): check
the content type, the body parse and the presence of a truthy `code`;
on success return the KV key, which is the string coercion of the
provided code value. -/
def loginParse (req : HttpRequest) : Except Response String :=
  if ctJson req = false then
    .error (jsonResp 400 [("error", .str "Invalid request body type. Expected JSON.")])
  else
    match req.body with
    | .error _ =>
      .error (jsonResp 400 [("error", .str "Invalid JSON format in request body.")])
    | .ok bodyJson =>
      match bodyJson with
      | .null => .error (loginCaught "Cannot read properties of null (reading code)")
      | _ =>
        if truthyV (jsGet bodyJson "code") = false then
          .error (jsonResp 400 [("error", .str "Login code is required.")])
        else .ok (jsToStringV (jsGet bodyJson "code"))

/-- The KV part of `handleLoginRequest` (lines 127-144): require the
binding, look the code up, and answer 200/success or 401/failure by
whether the key exists. -/
def loginKv (key : String) (env : Env) : Response × List Event :=
  match env.kv with
  | none =>
    (jsonResp 500 [("error", .str "Server configuration error: KV Namespace not bound.")], [])
  | some store =>
    match store key with
    | some v =>
      (jsonResp 200 [("success", .bool true), ("message", .str "Login successful.")],
       [.kvGet key (some v)])
    | none =>
      (jsonResp 401 [("success", .bool false), ("error", .str "Invalid login code.")],
       [.kvGet key none])

/-- `handleLoginRequest`: validate, then consult KV. -/
def handleLoginRequest (req : HttpRequest) (env : Env) : Response × List Event :=
  match loginParse req with
  | .error r => (r, [])
  | .ok key => loginKv key env

/-! ### `handleChatRequest` (V10, `[[path]].js` lines 160-404) -/

/-- The 500 response of `handleChatRequest`'s outer `catch` block. -/
def chatCaught (m : String) : Response :=
  jsonResp 500 [("error", .str "Failed to process chat request."),
                ("details", .str m)]

/-- The validation and cleaning part of `handleChatRequest` (lines
163-211): content type, body parse, truthy `message` and `code`, then
the message cleaning.  On success returns the cleaned message and the KV
key (string coercion of the code).  A truthy non-string `message` makes
`userMessage.replace` (and then the `catch`'s `userMessage.trim`) throw,
landing in the outer `catch`. -/
def chatParse (req : HttpRequest) : Except Response (String × String) :=
  if ctJson req = false then
    .error (jsonResp 400 [("error", .str "Invalid request body type. Expected JSON.")])
  else
    match req.body with
    | .error m =>
      .error (jsonResp 400 [("error", .str "Invalid JSON format in request body."),
                            ("details", .str m)])
    | .ok bodyJson =>
      match bodyJson with
      | .null => .error (chatCaught "Cannot read properties of null (reading message)")
      | _ =>
        if truthyV (jsGet bodyJson "message") = false ∨
            truthyV (jsGet bodyJson "code") = false then
          .error (jsonResp 400 [("error", .str "Message and login code are required.")])
        else
          match jsGet bodyJson "message" with
          | .val (.str m) => .ok (cleanMessage m, jsToStringV (jsGet bodyJson "code"))
          | _ => .error (chatCaught "userMessage.replace is not a function")

/-- `env.API_ENDPOINT || "https://api.openai.com/v1"`. -/
def chatBaseUrl (env : Env) : String :=
  if env.apiEndpointVar = "" then "https://api.openai.com/v1" else env.apiEndpointVar

/-- The origin of a base URL, for `new URL("/chat/completions", base)`:
scheme and host, dropping any path (so a `/v1` suffix of the base is
discarded, as the `URL` constructor does for an absolute path).  `none`
models the constructor throwing on a base with no `scheme://host` part.
(Port, userinfo and case normalisation are not modelled; no claim
involves them.) -/
def urlOrigin (base : String) : Option String :=
  match splitAtSub "://".toList base.toList with
  | none => none
  | some (schemeChars, rest) =>
    let scheme := String.mk schemeChars
    let host := String.mk (rest.takeWhile
      (fun c => c ≠ '/' && c ≠ '?' && c ≠ '#'))
    if scheme = "" ∨ host = "" then none
    else some (scheme ++ "://" ++ host)

/-- The LLM request payload (lines 255-259): model name and a
two-message list — the configured system prompt and the cleaned user
message.  No conversation history is included. -/
def mkChatPayload (env : Env) (cleaned : String) : Json :=
  .obj [("model", .str (if env.llmModelVar = "" then "gpt-3.5-turbo" else env.llmModelVar)),
        ("messages", .arr
          [.obj [("role", .str "system"),
                 ("content", .str (if env.systemPromptVar = "" then
                    "You are a helpful assistant." else env.systemPromptVar))],
           .obj [("role", .str "user"), ("content", .str cleaned)]])]

/-- The `errorText` computed for a non-ok upstream response (lines
271-293): default text, overridden by the body when readable — parsed as
JSON to extract `error.message`/`error.type`/`error.code` when possible,
with a throw inside the inner `try` (parse failure, or property access
on a parsed `null`) caught into `errorBody || errorText`. -/
def llmErrorText (o : UpstreamResponse) : String :=
  let dflt := "LLM API returned status " ++ toString o.status
  match o.body with
  | .error _ => dflt
  | .ok errorBody =>
    match jsonParse errorBody with
    | .error _ => if errorBody = "" then dflt else errorBody
    | .ok ej =>
      match ej with
      | .null => if errorBody = "" then dflt else errorBody
      | _ =>
        match jsGet ej "error" with
        | .undefined => dflt
        | .val ejErr =>
          if ejErr.truthy = false then dflt
          else
            let msg := jsGet ejErr "message"
            let chosen :=
              if truthyV msg then jsToStringV msg
              else
                let t := jsGet ejErr "type"
                if truthyV t then jsToStringV t else dflt
            let codeV := jsGet ejErr "code"
            let codeStr := if truthyV codeV then jsToStringV codeV else "unknown"
            chosen ++ " (Code: " ++ codeStr ++ ")"

/-- The reply extraction (lines 367-381), inside its `try`:
`llmResult.choices?.[0]?.message?.content?.trim()`, then the
`response`/`output`/`text`/`content` fallbacks under `||`, then the
whole-result-is-a-string fallback.  A throw (property access on `null`,
or `.trim()` on a non-string) is caught with `aiReply` left
`undefined`. -/
def extractReply (llmResult : Json) : JsVal :=
  match llmResult with
  | .null => .undefined
  | _ =>
    let content := optChainGet (optChainGet
      (optChainIndex (jsGet llmResult "choices") 0) "message") "content"
    let firstTry : Option JsVal :=
      match content with
      | .undefined => some .undefined
      | .val .null => some .undefined
      | .val (.str s) => some (.val (.str (jsTrim s)))
      | .val _ => none
    match firstTry with
    | none => .undefined
    | some a =>
      if truthyV a then a
      else
        let fb := orJs (jsGet llmResult "response") (orJs (jsGet llmResult "output")
          (orJs (jsGet llmResult "text") (jsGet llmResult "content")))
        if truthyV fb then fb
        else
          match llmResult with
          | .str s => .val (.str (jsTrim s))
          | _ => fb

/-- After a parsed `llmResult` (lines 366-397): extract the reply; a
truthy reply answers 200, otherwise the content-missing 500 — whose body
construction calls `Object.keys(llmResult)`, which throws on `null` into
the outer `catch`. -/
def extractAndRespond (llmResult : Json) : Response :=
  match extractReply llmResult with
  | .val j =>
    if j.truthy then jsonResp 200 [("reply", j)]
    else chatNoReply llmResult
  | .undefined => chatNoReply llmResult
where
  chatNoReply (llmResult : Json) : Response :=
    match llmResult with
    | .null => chatCaught "Cannot convert undefined or null to object"
    | _ =>
      jsonResp 500 [("error", .str "Failed to parse AI response (content missing)."),
                    ("responseStructure",
                     .str (String.intercalate ", " (jsObjectKeys llmResult)))]

/-- The 500 answered when the upstream body cannot be parsed at all
(lines 356-363). -/
def chatParse500 (m : String) : Response :=
  jsonResp 500 [("error", .str "Failed to parse AI response."),
                ("details", .str m),
                ("suggestion", .str "Check Cloudflare logs for raw response details")]

/-- The `llmResponse.json()`-failure path (lines 311-364): read the raw
text from the clone; if it is non-blank, look for a `{…}` span — parse
it and continue to extraction on success, fall back to the 500 on
failure — and if there is no such span answer 200 with the trimmed raw
text as the reply. -/
def chatJsonFailPath (o : UpstreamResponse) (jsonErrMsg : String) : Response :=
  match o.body with
  | .error _ => chatParse500 jsonErrMsg
  | .ok rawText =>
    if rawText = "" ∨ jsTrim rawText = "" then chatParse500 jsonErrMsg
    else
      match idxOfChar lbrace rawText.toList, lastIdxOfChar rbrace rawText.toList with
      | some s, some e =>
        if s < e then
          match jsonParse (String.mk ((rawText.toList.drop s).take (e + 1 - s))) with
          | .ok v => extractAndRespond v
          | .error _ => chatParse500 jsonErrMsg
        else
          jsonResp 200 [("reply", .str (jsTrim rawText)),
                        ("warning", .str "Response was not in expected JSON format")]
      | _, _ =>
        jsonResp 200 [("reply", .str (jsTrim rawText)),
                      ("warning", .str "Response was not in expected JSON format")]

/-- Processing of the LLM response (lines 269-397): pass a non-2xx
status through with the computed error text, otherwise parse the body
and extract the reply. -/
def processLlm (o : UpstreamResponse) : Response :=
  if upstreamOk o = false then
    jsonResp o.status [("error", .str "Failed to get response from AI service."),
                       ("details", .str (llmErrorText o)),
                       ("status", .num (o.status : Rat))]
  else
    match upstreamJson o with
    | .ok llmResult => extractAndRespond llmResult
    | .error m => chatJsonFailPath o m

/-- The part of `handleChatRequest` after validation (lines 213-397):
require the KV binding, look the code up (401 when absent), check the
API key, build the full URL (dropping the base path, see `urlOrigin`),
call the LLM once and process its response. -/
def chatValidated (cleaned key : String) (env : Env) (o : UpstreamResponse) :
    Response × List Event :=
  match env.kv with
  | none =>
    (jsonResp 500 [("error", .str "Server configuration error: KV Namespace not bound.")], [])
  | some store =>
    match store key with
    | none =>
      (jsonResp 401 [("error", .str "Invalid or expired login code.")], [.kvGet key none])
    | some v =>
      if env.apiKeyVar = "" then
        (jsonResp 500 [("error", .str "Server configuration error: Missing API Key.")],
         [.kvGet key (some v)])
      else
        match urlOrigin (chatBaseUrl env) with
        | none =>
          (jsonResp 500 [("error", .str "Server configuration error: Invalid API Endpoint URL format."),
                         ("details", .str "Invalid base URL")],
           [.kvGet key (some v)])
        | some origin =>
          (processLlm o,
           [.kvGet key (some v),
            .llmCall (origin ++ "/chat/completions") (mkChatPayload env cleaned)])

/-- `handleChatRequest`: validate and clean, then the KV + LLM part. -/
def handleChatRequest (req : HttpRequest) (env : Env) (o : UpstreamResponse) :
    Response × List Event :=
  match chatParse req with
  | .error r => (r, [])
  | .ok (cleaned, key) => chatValidated cleaned key env o

/-! ### `onRequest` (V8, `[[path]].js` lines 14-105) -/

/-- The three CORS headers added to every routed response (lines 73-77). -/
def corsHeaderList : List (String × String) :=
  [("Access-Control-Allow-Origin", "*"),
   ("Access-Control-Allow-Methods", "GET, POST, OPTIONS"),
   ("Access-Control-Allow-Headers", "Content-Type, Authorization")]

/-- `Headers.set`: replace an existing header, else append. -/
def setHeader (hs : List (String × String)) (k v : String) :
    List (String × String) :=
  if hs.any (fun p => p.1 = k) then hs.map (fun p => if p.1 = k then (k, v) else p)
  else hs ++ [(k, v)]

/-- Rebuild the response with the CORS headers set (lines 78-88). -/
def addCors (r : Response) : Response :=
  { r with headers := corsHeaderList.foldl (fun hs kv => setHeader hs kv.1 kv.2) r.headers }

/-- `handleOptions` (lines 95-105): the 204 preflight response. -/
def handleOptions : Response :=
  { status := 204
    headers := [("Access-Control-Allow-Origin", "*"),
                ("Access-Control-Allow-Methods", "GET, POST, OPTIONS"),
                ("Access-Control-Allow-Headers", "Content-Type, Authorization"),
                ("Access-Control-Max-Age", "86400")]
    body := .null }

/-- `onRequest`: non-`/api/` paths get a bare 404; `OPTIONS` gets the
preflight response; otherwise route to the handlers (or the JSON 404),
with the `catch` block modelled by the `fault` parameter — `some m`
stands for an exception with message `m` thrown during handling — and
add the CORS headers to whatever came out.  (The
`response instanceof Response` guard is dead in the model: handlers
always produce a response.) -/
def onRequest (req : HttpRequest) (env : Env) (o : UpstreamResponse)
    (fault : Option String) : Response × List Event :=
  if strStartsWith req.pathname "/api/" = false then
    ({ status := 404, headers := [], body := .str "Not Found" }, [])
  else if req.method = "OPTIONS" then (handleOptions, [])
  else
    let pr : Response × List Event :=
      match fault with
      | some m =>
        (jsonResp 500 [("error", .str "Internal Server Error"), ("details", .str m)], [])
      | none =>
        if req.pathname = "/api/login" ∧ req.method = "POST" then
          handleLoginRequest req env
        else if req.pathname = "/api/chat" ∧ req.method = "POST" then
          handleChatRequest req env o
        else (jsonResp 404 [("error", .str "API route not found")], [])
    (addCors pr.1, pr.2)

/-! ### The front-end login flow (`script.js`, `handleLogin`) -/

/-- A placeholder upstream response for runs that never reach the LLM
(the login route ignores it). -/
def unusedUpstream : UpstreamResponse := { status := 500, body := .error "unused" }

/-- The front-end `handleLogin` of `src/public/script.js` (current
revision, lines 112-186): trim the input; reject locally unless it
matches `/^\d{10}$/` (no request is sent); otherwise POST the code to
`/api/login` and grant access iff `response.ok && result.success`.
Returns (backend was called, access granted). -/
def frontendHandleLogin (input : String) (env : Env) : Bool × Bool :=
  let code := jsTrim input
  if isTenDigitCode code = false then (false, false)
  else
    let resp := (onRequest
      { pathname := "/api/login", method := "POST",
        contentType := some "application/json",
        body := .ok (.obj [("code", .str code)]) } env unusedUpstream none).1
    (true, (decide (200 ≤ resp.status) && decide (resp.status ≤ 299))
      && truthyV (jsGet resp.body "success"))

/-! ### Derived observations used in the claim statements -/

/-- The KV key a request designates: the string coercion of its body's
`code` field (the empty string when the body did not parse; no KV access
happens in that case). -/
def reqCodeKey (req : HttpRequest) : String :=
  match req.body with
  | .ok b => jsToStringV (jsGet b "code")
  | .error _ => ""

/-- The number of LLM calls in a trace. -/
def countLlm : List Event → Nat
  | [] => 0
  | .llmCall _ _ :: t => countLlm t + 1
  | _ :: t => countLlm t

/-- Is an event a KV write? -/
def Event.isPut : Event → Bool
  | .kvPut _ _ => true
  | _ => false

/-- The key of a KV event, if it is one. -/
def Event.kvKey : Event → Option String
  | .kvGet k _ => some k
  | .kvPut k _ => some k
  | .llmCall _ _ => none

/-! ### Concrete instances for witnesses and counterexamples -/

/-- A store holding the single ten-digit code 1234567890. -/
def demoStore : String → Option String :=
  fun k => if k = "1234567890" then some "1" else none

/-- A store holding the single non-ten-digit code abc. -/
def abcStore : String → Option String :=
  fun k => if k = "abc" then some "x" else none

/-- A fully configured environment over `demoStore`. -/
def demoEnv : Env :=
  { kv := some demoStore
    apiKeyVar := "sk-test"
    apiEndpointVar := ""
    systemPromptVar := ""
    llmModelVar := "" }

/-- The same environment over `abcStore`. -/
def abcEnv : Env := { demoEnv with kv := some abcStore }

/-- A well-formed chat request for code 1234567890. -/
def demoChatReq : HttpRequest :=
  { pathname := "/api/chat"
    method := "POST"
    contentType := some "application/json"
    body := .ok (.obj [("message", .str "Hello there"), ("code", .str "1234567890")]) }

/-- A well-formed login request for code 1234567890. -/
def demoLoginReq : HttpRequest :=
  { pathname := "/api/login"
    method := "POST"
    contentType := some "application/json"
    body := .ok (.obj [("code", .str "1234567890")]) }

/-- A well-formed login request for the non-ten-digit code abc. -/
def abcLoginReq : HttpRequest :=
  { demoLoginReq with body := .ok (.obj [("code", .str "abc")]) }

/-- A chat request for abc (used with `abcEnv`). -/
def abcChatReq : HttpRequest :=
  { demoChatReq with
    body := .ok (.obj [("message", .str "Hello there"), ("code", .str "abc")]) }

/-- A chat request whose code 9999999999 is in no demo store. -/
def unknownCodeChatReq : HttpRequest :=
  { demoChatReq with
    body := .ok (.obj [("message", .str "Hello there"), ("code", .str "9999999999")]) }

/-- A successful upstream completion: 200 with the standard
`choices[0].message.content` shape. -/
def okUpstream : UpstreamResponse :=
  { status := 200
    body := .ok "\x7b\"choices\":[\x7b\"message\":\x7b\"content\":\"Hi!\"\x7d\x7d]\x7d" }

/-- A failed upstream call: 503 with an OpenAI-style error body. -/
def errUpstream : UpstreamResponse :=
  { status := 503
    body := .ok "\x7b\"error\":\x7b\"message\":\"quota exceeded\",\"code\":\"insufficient_quota\"\x7d\x7d" }

/-- A 200 upstream response whose body parses but holds a number under
`response` — the fallback extraction returns it as the reply. -/
def numUpstream : UpstreamResponse :=
  { status := 200, body := .ok "\x7b\"response\": 123\x7d" }

/-- `demoStore` with a different stored value under the same key. -/
def altStore : String → Option String :=
  fun k => if k = "1234567890" then some "other" else none

/-! ## Helper lemmas -/

theorem mem_setHeader_self (hs : List (String × String)) (k v : String) :
    (k, v) ∈ setHeader hs k v := by
  unfold setHeader
  split
  · rename_i hany
    rw [List.any_eq_true] at hany
    obtain ⟨p, hp, hpk⟩ := hany
    refine List.mem_map.mpr ⟨p, hp, ?_⟩
    simp only [decide_eq_true_eq] at hpk
    simp [hpk]
  · exact List.mem_append_right _ (by simp)

theorem mem_setHeader_of_ne (hs : List (String × String)) (k v k2 v2 : String)
    (hne : k2 ≠ k) (h : (k2, v2) ∈ hs) : (k2, v2) ∈ setHeader hs k v := by
  unfold setHeader
  split
  · refine List.mem_map.mpr ⟨(k2, v2), h, ?_⟩
    simp [hne]
  · exact List.mem_append_left _ h

theorem addCors_has (r : Response) :
    ("Access-Control-Allow-Origin", "*") ∈ (addCors r).headers ∧
    ("Access-Control-Allow-Methods", "GET, POST, OPTIONS") ∈ (addCors r).headers ∧
    ("Access-Control-Allow-Headers", "Content-Type, Authorization") ∈ (addCors r).headers := by
  have e : (addCors r).headers =
      setHeader (setHeader (setHeader r.headers "Access-Control-Allow-Origin" "*")
        "Access-Control-Allow-Methods" "GET, POST, OPTIONS")
        "Access-Control-Allow-Headers" "Content-Type, Authorization" := by
    simp [addCors, corsHeaderList]
  refine ⟨?_, ?_, ?_⟩ <;> rw [e]
  · exact mem_setHeader_of_ne _ _ _ _ _ (by decide)
      (mem_setHeader_of_ne _ _ _ _ _ (by decide) (mem_setHeader_self _ _ _))
  · exact mem_setHeader_of_ne _ _ _ _ _ (by decide) (mem_setHeader_self _ _ _)
  · exact mem_setHeader_self _ _ _

/-- C8: every response `onRequest` produces for an `/api/` path carries
the three CORS headers: `Access-Control-Allow-Origin: *`,
`Access-Control-Allow-Methods: GET, POST, OPTIONS` and
`Access-Control-Allow-Headers: Content-Type, Authorization` — whether it
came from a handler, an error branch, the 404 for an unmatched route,
the catch-all 500, or the OPTIONS preflight. -/
theorem C8_cors_on_api (req : HttpRequest) (env : Env) (o : UpstreamResponse)
    (fault : Option String) (h : strStartsWith req.pathname "/api/" = true) :
    ("Access-Control-Allow-Origin", "*") ∈ (onRequest req env o fault).1.headers ∧
    ("Access-Control-Allow-Methods", "GET, POST, OPTIONS")
      ∈ (onRequest req env o fault).1.headers ∧
    ("Access-Control-Allow-Headers", "Content-Type, Authorization")
      ∈ (onRequest req env o fault).1.headers := by
  unfold onRequest
  simp only [h, Bool.true_eq_false, if_false]
  by_cases hm : req.method = "OPTIONS"
  · simp only [hm, if_pos, if_true]
    refine ⟨?_, ?_, ?_⟩ <;> simp [handleOptions]
  · simp only [hm, if_neg, if_false]
    exact addCors_has _

/-- Witness for C8 at a concrete request. -/
theorem C8_cors_on_api_witness :
    ("Access-Control-Allow-Origin", "*")
      ∈ (onRequest demoChatReq demoEnv okUpstream none).1.headers ∧
    ("Access-Control-Allow-Methods", "GET, POST, OPTIONS")
      ∈ (onRequest demoChatReq demoEnv okUpstream none).1.headers ∧
    ("Access-Control-Allow-Headers", "Content-Type, Authorization")
      ∈ (onRequest demoChatReq demoEnv okUpstream none).1.headers :=
  C8_cors_on_api demoChatReq demoEnv okUpstream none (by rfl)

/-- When login validation succeeds, the key it yields is the request's
code key. -/
theorem loginParse_ok_key (req : HttpRequest) (k : String)
    (hp : loginParse req = .ok k) : k = reqCodeKey req := by
  unfold loginParse at hp
  split at hp
  · simp at hp
  · split at hp
    · simp at hp
    · rename_i bodyJson heq
      split at hp
      · simp at hp
      · split at hp
        · simp at hp
        · simp only [Except.ok.injEq] at hp
          simp [reqCodeKey, heq, ← hp]

/-- When chat validation succeeds, the key it yields is the request's
code key. -/
theorem chatParse_ok_key (req : HttpRequest) (c k : String)
    (hp : chatParse req = .ok (c, k)) : k = reqCodeKey req := by
  unfold chatParse at hp
  split at hp
  · simp at hp
  · split at hp
    · simp at hp
    · rename_i bodyJson heq
      split at hp
      · simp at hp
      · split at hp
        · simp at hp
        · split at hp
          · simp only [Except.ok.injEq, Prod.mk.injEq] at hp
            simp [reqCodeKey, heq, ← hp.2]
          · simp at hp

/-- Every trace of `handleLoginRequest` is empty or a single read of the
request's code key. -/
theorem loginTrace_cases (req : HttpRequest) (env : Env) :
    (handleLoginRequest req env).2 = [] ∨
    ∃ r, (handleLoginRequest req env).2 = [.kvGet (reqCodeKey req) r] := by
  unfold handleLoginRequest
  cases hp : loginParse req with
  | error r => simp
  | ok key =>
    have hk := loginParse_ok_key req key hp
    subst hk
    unfold loginKv
    cases hkv : env.kv with
    | none => simp
    | some store =>
      cases hsk : store (reqCodeKey req) with
      | none => right; exact ⟨none, by simp [hsk]⟩
      | some v => right; exact ⟨some v, by simp [hsk]⟩

/-- Every trace of `handleChatRequest` is empty, a single failed read of
the request's code key, a single successful read, or a successful read
followed by a single LLM call. -/
theorem chatTrace_cases (req : HttpRequest) (env : Env) (o : UpstreamResponse) :
    (handleChatRequest req env o).2 = [] ∨
    (handleChatRequest req env o).2 = [.kvGet (reqCodeKey req) none] ∨
    (∃ v, (handleChatRequest req env o).2 = [.kvGet (reqCodeKey req) (some v)]) ∨
    (∃ v u p, (handleChatRequest req env o).2 =
        [.kvGet (reqCodeKey req) (some v), .llmCall u p]) := by
  unfold handleChatRequest
  cases hp : chatParse req with
  | error r => simp
  | ok pr =>
    obtain ⟨cleaned, key⟩ := pr
    have hk := chatParse_ok_key req cleaned key hp
    subst hk
    unfold chatValidated
    cases hkv : env.kv with
    | none => simp
    | some store =>
      cases hsk : store (reqCodeKey req) with
      | none => simp [hsk]
      | some v =>
        by_cases hak : env.apiKeyVar = ""
        · simp [hsk, hak]
        · cases hurl : urlOrigin (chatBaseUrl env) with
          | none => simp [hsk, hak, hurl]
          | some origin =>
            right; right; right
            exact ⟨v, origin ++ "/chat/completions", mkChatPayload env cleaned,
              by simp [hsk, hak, hurl]⟩

/-- C2: for a `/api/login` request with JSON content type, a body that
parses to a non-`null` value with a truthy `code`, and the KV namespace
bound: the handler answers 200 with `success: true` exactly when the
code is a key of the store, and 401 with `success: false` exactly when
it is not. -/
theorem C2_login_decided_by_kv (req : HttpRequest) (env : Env)
    (store : String → Option String) (b : Json)
    (hct : ctJson req = true) (hb : req.body = .ok b) (hnn : b ≠ .null)
    (hcode : truthyV (jsGet b "code") = true) (hkv : env.kv = some store) :
    (((handleLoginRequest req env).1.status = 200 ∧
        jsGet (handleLoginRequest req env).1.body "success" = .val (.bool true))
      ↔ (store (reqCodeKey req)).isSome = true) ∧
    (((handleLoginRequest req env).1.status = 401 ∧
        jsGet (handleLoginRequest req env).1.body "success" = .val (.bool false))
      ↔ store (reqCodeKey req) = none) := by
  have hparse : loginParse req = .ok (reqCodeKey req) := by
    unfold loginParse
    rw [hct, hb]
    cases b with
    | null => exact absurd rfl hnn
    | bool x => simp [hcode, reqCodeKey, hb]
    | num x => simp [hcode, reqCodeKey, hb]
    | str x => simp [hcode, reqCodeKey, hb]
    | arr x => simp [hcode, reqCodeKey, hb]
    | obj x => simp [hcode, reqCodeKey, hb]
  unfold handleLoginRequest
  rw [hparse]
  unfold loginKv
  rw [hkv]
  cases hsk : store (reqCodeKey req) with
  | none => simp [hsk, jsonResp, jsGet, lookupField]
  | some v => simp [hsk, jsonResp, jsGet, lookupField]

/-- Witness for C2: the stored code 1234567890 logs in with 200. -/
theorem C2_login_decided_by_kv_witness :
    (handleLoginRequest demoLoginReq demoEnv).1.status = 200 ∧
    jsGet (handleLoginRequest demoLoginReq demoEnv).1.body "success" =
      .val (.bool true) :=
  (C2_login_decided_by_kv demoLoginReq demoEnv demoStore
    (.obj [("code", .str "1234567890")]) rfl rfl (by simp) rfl rfl).1.mpr rfl

/-- C3: a well-formed `/api/chat` request whose login code is not a key
of the bound store is answered 401 and its trace contains no LLM call;
and — unconditionally — any LLM call in a chat trace is preceded by a
successful KV read of the request's code. -/
theorem C3_validate_before_llm (req : HttpRequest) (env : Env) (o : UpstreamResponse) :
    (∀ (store : String → Option String) (cleaned key : String),
        env.kv = some store → chatParse req = .ok (cleaned, key) →
        store key = none →
        (handleChatRequest req env o).1.status = 401 ∧
        ∀ u p, Event.llmCall u p ∉ (handleChatRequest req env o).2) ∧
    (∀ u p i, (handleChatRequest req env o).2.get? i = some (.llmCall u p) →
        ∃ j v, j < i ∧ (handleChatRequest req env o).2.get? j =
          some (.kvGet (reqCodeKey req) (some v))) := by
  constructor
  · intro store cleaned key hkv hp hsk
    simp only [handleChatRequest, hp, chatValidated, hkv, hsk]
    constructor
    · rfl
    · intro u p
      simp
  · intro u p i hi
    rcases chatTrace_cases req env o with h | h | ⟨v, h⟩ | ⟨v, u2, p2, h⟩ <;> rw [h] at hi
    · simp at hi
    · cases i with
      | zero => simp at hi
      | succ n => simp at hi
    · cases i with
      | zero => simp at hi
      | succ n => simp at hi
    · cases i with
      | zero => simp at hi
      | succ n =>
        cases n with
        | zero => exact ⟨0, v, by omega, by rw [h]; rfl⟩
        | succ m => simp at hi

/-- Witness for C3 at the unknown code 9999999999: 401 and no LLM call. -/
theorem C3_validate_before_llm_witness :
    (handleChatRequest unknownCodeChatReq demoEnv okUpstream).1.status = 401 ∧
    ∀ u p, Event.llmCall u p ∉ (handleChatRequest unknownCodeChatReq demoEnv okUpstream).2 :=
  (C3_validate_before_llm unknownCodeChatReq demoEnv okUpstream).1
    demoStore "Hello there" "9999999999" rfl rfl rfl

/-- C6: every `/api/chat` run makes at most one LLM round trip, and
exactly one once validation passed and no earlier error branch was
taken (KV bound, code present, API key set, endpoint URL valid). -/
theorem C6_single_llm_roundtrip (req : HttpRequest) (env : Env) (o : UpstreamResponse) :
    countLlm (handleChatRequest req env o).2 ≤ 1 ∧
    (∀ (store : String → Option String) (cleaned key v origin : String),
        chatParse req = .ok (cleaned, key) → env.kv = some store →
        store key = some v → env.apiKeyVar ≠ "" →
        urlOrigin (chatBaseUrl env) = some origin →
        countLlm (handleChatRequest req env o).2 = 1) := by
  constructor
  · rcases chatTrace_cases req env o with h | h | ⟨v, h⟩ | ⟨v, u, p, h⟩ <;>
      rw [h] <;> simp [countLlm]
  · intro store cleaned key v origin hp hkv hsk hak hurl
    simp only [handleChatRequest, hp, chatValidated, hkv, hsk, hurl, if_neg hak]
    simp [countLlm]

/-- Witness for C6: the demo chat run makes exactly one LLM call. -/
theorem C6_single_llm_roundtrip_witness :
    countLlm (handleChatRequest demoChatReq demoEnv okUpstream).2 = 1 :=
  (C6_single_llm_roundtrip demoChatReq demoEnv okUpstream).2
    demoStore "Hello there" "1234567890" "1" "https://api.openai.com"
    rfl rfl rfl (by decide) rfl

/-- C7: every KV access either handler performs uses exactly the key
supplied as the request's login code, and none of them is a write. -/
theorem C7_single_key_per_request (req : HttpRequest) (env : Env) (o : UpstreamResponse) :
    (∀ e ∈ (handleLoginRequest req env).2,
        e.isPut = false ∧ ∀ k, e.kvKey = some k → k = reqCodeKey req) ∧
    (∀ e ∈ (handleChatRequest req env o).2,
        e.isPut = false ∧ ∀ k, e.kvKey = some k → k = reqCodeKey req) := by
  constructor
  · intro e he
    rcases loginTrace_cases req env with h | ⟨r, h⟩ <;> rw [h] at he
    · simp at he
    · rw [List.mem_singleton] at he
      subst he
      refine ⟨rfl, ?_⟩
      intro k hk
      simp [Event.kvKey] at hk
      exact hk.symm
  · intro e he
    rcases chatTrace_cases req env o with h | h | ⟨v, h⟩ | ⟨v, u, p, h⟩ <;> rw [h] at he
    · simp at he
    · rw [List.mem_singleton] at he
      subst he
      refine ⟨rfl, ?_⟩
      intro k hk
      simp [Event.kvKey] at hk
      exact hk.symm
    · rw [List.mem_singleton] at he
      subst he
      refine ⟨rfl, ?_⟩
      intro k hk
      simp [Event.kvKey] at hk
      exact hk.symm
    · rcases List.mem_pair.mp he with he | he <;> subst he
      · refine ⟨rfl, ?_⟩
        intro k hk
        simp [Event.kvKey] at hk
        exact hk.symm
      · exact ⟨rfl, by intro k hk; simp [Event.kvKey] at hk⟩

/-- Witness for C7: the KV read of the demo chat run touches exactly the
request's code key. -/
theorem C7_single_key_per_request_witness :
    (Event.kvGet "1234567890" (some "1")).isPut = false ∧
    ∀ k, (Event.kvGet "1234567890" (some "1")).kvKey = some k →
      k = reqCodeKey demoChatReq := by
  have h := (C7_single_key_per_request demoChatReq demoEnv okUpstream).2
  refine h _ ?_
  have ht : (handleChatRequest demoChatReq demoEnv okUpstream).2 =
      [Event.kvGet "1234567890" (some "1"),
       Event.llmCall "https://api.openai.com/chat/completions"
         (mkChatPayload demoEnv "Hello there")] := rfl
  rw [ht]
  exact List.mem_cons_self _ _

/-- `loginKv` answers the same response over two stores with the same
key set: only `isSome` of the lookup is observed. -/
theorem loginKv_resp_congr (key : String) (s1 s2 : String → Option String)
    (ak ae sp lm : String) (h : ∀ k, (s1 k).isSome = (s2 k).isSome) :
    (loginKv key ⟨some s1, ak, ae, sp, lm⟩).1 =
      (loginKv key ⟨some s2, ak, ae, sp, lm⟩).1 := by
  unfold loginKv
  cases h1 : s1 key with
  | none =>
    have h2 : s2 key = none := by
      have hk := h key
      rw [h1] at hk
      exact Option.not_isSome_iff_eq_none.mp (by rw [← hk]; simp)
    simp [h1, h2]
  | some v =>
    have h2 : ∃ w, s2 key = some w := by
      have hk := h key
      rw [h1] at hk
      exact Option.isSome_iff_exists.mp (by rw [← hk]; simp)
    obtain ⟨w, h2⟩ := h2
    simp [h1, h2]

/-- `chatValidated` answers the same response over two stores with the
same key set. -/
theorem chatValidated_resp_congr (cleaned key : String)
    (s1 s2 : String → Option String) (ak ae sp lm : String) (o : UpstreamResponse)
    (h : ∀ k, (s1 k).isSome = (s2 k).isSome) :
    (chatValidated cleaned key ⟨some s1, ak, ae, sp, lm⟩ o).1 =
      (chatValidated cleaned key ⟨some s2, ak, ae, sp, lm⟩ o).1 := by
  unfold chatValidated
  cases h1 : s1 key with
  | none =>
    have h2 : s2 key = none := by
      have hk := h key
      rw [h1] at hk
      exact Option.not_isSome_iff_eq_none.mp (by rw [← hk]; simp)
    simp [h1, h2]
  | some v =>
    have h2 : ∃ w, s2 key = some w := by
      have hk := h key
      rw [h1] at hk
      exact Option.isSome_iff_exists.mp (by rw [← hk]; simp)
    obtain ⟨w, h2⟩ := h2
    simp only [h1, h2]
    by_cases hak : ak = ""
    · simp [hak]
    · simp only [if_neg hak]
      have hsame : chatBaseUrl ⟨some s1, ak, ae, sp, lm⟩ =
          chatBaseUrl ⟨some s2, ak, ae, sp, lm⟩ := rfl
      rw [hsame]
      cases hurl : urlOrigin (chatBaseUrl ⟨some s2, ak, ae, sp, lm⟩) with
      | none => simp [hurl]
      | some origin => simp [hurl]

/-- C9: the stored values never influence a response.  For any two
stores with the same keys (possibly different values) and otherwise
identical environments, `/api/login` and `/api/chat` answer identical
responses for every request — the handlers branch only on whether the
lookup result is null. -/
theorem C9_value_independence (req : HttpRequest) (o : UpstreamResponse)
    (s1 s2 : String → Option String) (ak ae sp lm : String)
    (h : ∀ k, (s1 k).isSome = (s2 k).isSome) :
    (handleLoginRequest req ⟨some s1, ak, ae, sp, lm⟩).1 =
      (handleLoginRequest req ⟨some s2, ak, ae, sp, lm⟩).1 ∧
    (handleChatRequest req ⟨some s1, ak, ae, sp, lm⟩ o).1 =
      (handleChatRequest req ⟨some s2, ak, ae, sp, lm⟩ o).1 := by
  constructor
  · unfold handleLoginRequest
    cases hp : loginParse req with
    | error r => simp
    | ok key => simpa using loginKv_resp_congr key s1 s2 ak ae sp lm h
  · unfold handleChatRequest
    cases hp : chatParse req with
    | error r => simp
    | ok pr =>
      obtain ⟨cleaned, key⟩ := pr
      simpa using chatValidated_resp_congr cleaned key s1 s2 ak ae sp lm o h

/-- Witness for C9: swapping the stored value under 1234567890 leaves
both responses unchanged. -/
theorem C9_value_independence_witness :
    (handleLoginRequest demoChatReq ⟨some demoStore, "sk-test", "", "", ""⟩).1 =
      (handleLoginRequest demoChatReq ⟨some altStore, "sk-test", "", "", ""⟩).1 ∧
    (handleChatRequest demoChatReq ⟨some demoStore, "sk-test", "", "", ""⟩ okUpstream).1 =
      (handleChatRequest demoChatReq ⟨some altStore, "sk-test", "", "", ""⟩ okUpstream).1 :=
  C9_value_independence demoChatReq okUpstream demoStore altStore "sk-test" "" "" ""
    (by
      intro k
      unfold demoStore altStore
      by_cases hk : k = "1234567890" <;> simp [hk])

/-- C5: when the upstream LLM API answers a non-2xx status to a chat
request that reached the fetch, the handler's response carries exactly
the upstream status, the fixed error text and the details derived from
the upstream body, and the single round trip is not retried. -/
theorem C5_error_passthrough (req : HttpRequest) (env : Env) (o : UpstreamResponse)
    (store : String → Option String) (cleaned key v origin : String)
    (hp : chatParse req = .ok (cleaned, key)) (hkv : env.kv = some store)
    (hsk : store key = some v) (hak : env.apiKeyVar ≠ "")
    (hurl : urlOrigin (chatBaseUrl env) = some origin)
    (hnok : upstreamOk o = false) :
    (handleChatRequest req env o).1.status = o.status ∧
    jsGet (handleChatRequest req env o).1.body "error" =
      .val (.str "Failed to get response from AI service.") ∧
    jsGet (handleChatRequest req env o).1.body "details" =
      .val (.str (llmErrorText o)) ∧
    countLlm (handleChatRequest req env o).2 = 1 := by
  simp only [handleChatRequest, hp, chatValidated, hkv, hsk, hurl, if_neg hak]
  simp [processLlm, hnok, jsonResp, jsGet, lookupField, countLlm]

/-- Witness for C5: a 503 with an OpenAI-style error body passes
through as a 503 whose details quote the upstream error. -/
theorem C5_error_passthrough_witness :
    (handleChatRequest demoChatReq demoEnv errUpstream).1.status = errUpstream.status ∧
    jsGet (handleChatRequest demoChatReq demoEnv errUpstream).1.body "error" =
      .val (.str "Failed to get response from AI service.") ∧
    jsGet (handleChatRequest demoChatReq demoEnv errUpstream).1.body "details" =
      .val (.str (llmErrorText errUpstream)) ∧
    countLlm (handleChatRequest demoChatReq demoEnv errUpstream).2 = 1 :=
  C5_error_passthrough demoChatReq demoEnv errUpstream demoStore
    "Hello there" "1234567890" "1" "https://api.openai.com"
    rfl rfl rfl (by decide) rfl rfl

/-- The content-missing / throwing branch always answers 500. -/
theorem chatNoReply_status (j : Json) :
    (extractAndRespond.chatNoReply j).status = 500 := by
  unfold extractAndRespond.chatNoReply
  cases j <;> rfl

/-- A 200 out of `extractAndRespond` carries a truthy `reply`. -/
theorem extractAndRespond_200 (j : Json) :
    (extractAndRespond j).status = 200 →
    ∃ v, jsGet (extractAndRespond j).body "reply" = .val v ∧ v.truthy = true := by
  unfold extractAndRespond
  split
  · rename_i r heq
    by_cases ht : r.truthy = true
    · rw [if_pos ht]
      intro _
      exact ⟨r, by simp [jsonResp, jsGet, lookupField], ht⟩
    · rw [if_neg ht]
      intro h
      rw [chatNoReply_status] at h
      simp at h
  · intro h
    rw [chatNoReply_status] at h
    simp at h

/-- A 200 out of the JSON-failure path carries a truthy `reply`. -/
theorem chatJsonFailPath_200 (o : UpstreamResponse) (m : String) :
    (chatJsonFailPath o m).status = 200 →
    ∃ v, jsGet (chatJsonFailPath o m).body "reply" = .val v ∧ v.truthy = true := by
  unfold chatJsonFailPath
  split
  · intro h
    simp [chatParse500, jsonResp] at h
  · rename_i rawText heq
    split
    · intro h
      simp [chatParse500, jsonResp] at h
    · rename_i hraw
      have htrim : (Json.str (jsTrim rawText)).truthy = true := by
        have hne : ¬ jsTrim rawText = "" := fun hc => hraw (Or.inr hc)
        simp [Json.truthy, hne]
      split
      · split
        · split
          · rename_i v hjp
            exact extractAndRespond_200 v
          · intro h
            simp [chatParse500, jsonResp] at h
        · intro _
          exact ⟨.str (jsTrim rawText), by simp [jsonResp, jsGet, lookupField], htrim⟩
      · intro _
        exact ⟨.str (jsTrim rawText), by simp [jsonResp, jsGet, lookupField], htrim⟩

/-- A 200 out of `processLlm` carries a truthy `reply`. -/
theorem processLlm_200 (o : UpstreamResponse) :
    (processLlm o).status = 200 →
    ∃ v, jsGet (processLlm o).body "reply" = .val v ∧ v.truthy = true := by
  unfold processLlm
  split
  · rename_i hok
    intro h
    simp only [jsonResp] at h
    unfold upstreamOk at hok
    rw [h] at hok
    simp at hok
  · split
    · rename_i v hj
      exact extractAndRespond_200 v
    · rename_i m hj
      exact chatJsonFailPath_200 o m

/-- A failed chat validation answers 400 or 500. -/
theorem chatParse_error_status (req : HttpRequest) (r : Response)
    (hp : chatParse req = .error r) : r.status = 400 ∨ r.status = 500 := by
  unfold chatParse at hp
  repeat' split at hp
  all_goals first
    | (simp only [Except.error.injEq] at hp
       first
         | exact Or.inl (by rw [← hp]; rfl)
         | exact Or.inr (by rw [← hp]; rfl))
    | simp at hp

/-- C10 (amended): whenever `/api/chat` answers 200, the body holds a
`reply` field with a truthy JSON value — via the standard extraction or
the raw-text fallback a non-empty string, but via the
`response`/`output`/`text`/`content` fallbacks possibly a truthy
non-string.  When nothing truthy can be extracted the handler answers
500. -/
theorem C10_chat200_has_truthy_reply (req : HttpRequest) (env : Env)
    (o : UpstreamResponse)
    (h : (handleChatRequest req env o).1.status = 200) :
    ∃ v, jsGet (handleChatRequest req env o).1.body "reply" = .val v ∧
      v.truthy = true := by
  have key : (handleChatRequest req env o).1.status = 200 →
      ∃ v, jsGet (handleChatRequest req env o).1.body "reply" = .val v ∧
        v.truthy = true := by
    unfold handleChatRequest
    split
    · rename_i r hp
      intro h200
      rcases chatParse_error_status req r hp with hs | hs <;>
        (simp only at h200; omega)
    · rename_i pr cleaned key2 hp
      unfold chatValidated
      split
      · intro h200
        simp [jsonResp] at h200
      · split
        · intro h200
          simp [jsonResp] at h200
        · split
          · intro h200
            simp [jsonResp] at h200
          · split
            · intro h200
              simp [jsonResp] at h200
            · exact processLlm_200 o
  exact key h

/-- Witness for C10 (amended): the demo 200 run has the truthy reply. -/
theorem C10_chat200_has_truthy_reply_witness :
    ∃ v, jsGet (handleChatRequest demoChatReq demoEnv okUpstream).1.body "reply" =
      .val v ∧ v.truthy = true :=
  C10_chat200_has_truthy_reply demoChatReq demoEnv okUpstream rfl

/-- Counterexample to C10 as stated: a 2xx upstream body
`{"response": 123}` makes the handler answer 200 with a reply that is
the number 123, not a (non-empty) string. -/
theorem C10_counterexample :
    (handleChatRequest demoChatReq demoEnv numUpstream).1.status = 200 ∧
    jsGet (handleChatRequest demoChatReq demoEnv numUpstream).1.body "reply" =
      .val (.num 123) ∧
    ∀ s : String,
      jsGet (handleChatRequest demoChatReq demoEnv numUpstream).1.body "reply" ≠
        .val (.str s) := by
  refine ⟨rfl, rfl, ?_⟩
  intro s hs
  have h123 : jsGet (handleChatRequest demoChatReq demoEnv numUpstream).1.body "reply" =
      .val (.num 123) := rfl
  rw [h123] at hs
  simp at hs

/-- C1 (amended): a `/api/chat` run reads the stored value under the
login code only to validate it, calls the LLM at most once with exactly
the two-message payload `mkChatPayload` (configured system prompt and
the cleaned current message — no history), and never writes to the KV
store: no conversation history is appended or persisted. -/
theorem C1_no_history_persistence (req : HttpRequest) (env : Env) (o : UpstreamResponse) :
    (∀ e ∈ (handleChatRequest req env o).2, e.isPut = false) ∧
    (∀ u p, Event.llmCall u p ∈ (handleChatRequest req env o).2 →
        ∃ cleaned key, chatParse req = .ok (cleaned, key) ∧
          p = mkChatPayload env cleaned) := by
  constructor
  · intro e he
    rcases chatTrace_cases req env o with h | h | ⟨v, h⟩ | ⟨v, u, p, h⟩ <;> rw [h] at he
    · simp at he
    · rw [List.mem_singleton] at he
      subst he
      rfl
    · rw [List.mem_singleton] at he
      subst he
      rfl
    · rcases List.mem_pair.mp he with he | he <;> subst he <;> rfl
  · intro u p hm
    unfold handleChatRequest at hm
    cases hp : chatParse req with
    | error r =>
      rw [hp] at hm
      simp at hm
    | ok pr =>
      obtain ⟨cleaned, key⟩ := pr
      rw [hp] at hm
      have hm2 : Event.llmCall u p ∈ (chatValidated cleaned key env o).2 := hm
      unfold chatValidated at hm2
      split at hm2
      · simp at hm2
      · split at hm2
        · simp at hm2
        · split at hm2
          · simp at hm2
          · split at hm2
            · simp at hm2
            · rcases List.mem_pair.mp hm2 with hh | hh
              · simp at hh
              · refine ⟨cleaned, key, rfl, ?_⟩
                injection hh with hu hp2

/-- Witness for C1 (amended): the demo run's LLM payload is exactly the
two-message payload of the cleaned message. -/
theorem C1_no_history_persistence_witness :
    ∃ cleaned key, chatParse demoChatReq = .ok (cleaned, key) ∧
      mkChatPayload demoEnv "Hello there" = mkChatPayload demoEnv cleaned := by
  refine (C1_no_history_persistence demoChatReq demoEnv okUpstream).2
    "https://api.openai.com/chat/completions" (mkChatPayload demoEnv "Hello there") ?_
  have ht : (handleChatRequest demoChatReq demoEnv okUpstream).2 =
      [Event.kvGet "1234567890" (some "1"),
       Event.llmCall "https://api.openai.com/chat/completions"
         (mkChatPayload demoEnv "Hello there")] := rfl
  rw [ht]
  simp

/-- Counterexample to C1 as stated: a fully successful chat run (status
200) performs exactly one KV read and one LLM call and no KV write — the
user message and the reply are never appended to any stored history. -/
theorem C1_counterexample :
    (handleChatRequest demoChatReq demoEnv okUpstream).1.status = 200 ∧
    (handleChatRequest demoChatReq demoEnv okUpstream).2 =
      [Event.kvGet "1234567890" (some "1"),
       Event.llmCall "https://api.openai.com/chat/completions"
         (mkChatPayload demoEnv "Hello there")] ∧
    ∀ e ∈ (handleChatRequest demoChatReq demoEnv okUpstream).2, e.isPut = false := by
  refine ⟨rfl, rfl, ?_⟩
  intro e he
  have ht : (handleChatRequest demoChatReq demoEnv okUpstream).2 =
      [Event.kvGet "1234567890" (some "1"),
       Event.llmCall "https://api.openai.com/chat/completions"
         (mkChatPayload demoEnv "Hello there")] := rfl
  rw [ht] at he
  rcases List.mem_pair.mp he with he | he <;> subst he <;> rfl

/-- C4 (amended): the ten-digit format is enforced only by the front
end — `handleLogin` rejects any trimmed input not matching `/^\d{10}$/`
without contacting the backend — while the backend handlers accept
exactly the codes present as keys of the KV store, whatever their
format. -/
theorem C4_format_gate_frontend_only (env : Env) :
    (∀ input : String, isTenDigitCode (jsTrim input) = false →
        frontendHandleLogin input env = (false, false)) ∧
    (∀ (req : HttpRequest) (store : String → Option String) (b : Json),
        ctJson req = true → req.body = .ok b → b ≠ .null →
        truthyV (jsGet b "code") = true → env.kv = some store →
        ((handleLoginRequest req env).1.status = 200 ↔
          (store (reqCodeKey req)).isSome = true)) := by
  constructor
  · intro input h
    unfold frontendHandleLogin
    simp [h]
  · intro req store b hct hb hnn hcode hkv
    have hparse : loginParse req = .ok (reqCodeKey req) := by
      unfold loginParse
      rw [hct, hb]
      cases b with
      | null => exact absurd rfl hnn
      | bool x => simp [hcode, reqCodeKey, hb]
      | num x => simp [hcode, reqCodeKey, hb]
      | str x => simp [hcode, reqCodeKey, hb]
      | arr x => simp [hcode, reqCodeKey, hb]
      | obj x => simp [hcode, reqCodeKey, hb]
    unfold handleLoginRequest
    rw [hparse]
    unfold loginKv
    rw [hkv]
    cases hsk : store (reqCodeKey req) with
    | none => simp [hsk, jsonResp]
    | some v => simp [hsk, jsonResp]

/-- Witness for C4 (amended): the non-ten-digit input abc is rejected
locally by the front end. -/
theorem C4_format_gate_frontend_only_witness :
    frontendHandleLogin "abc" demoEnv = (false, false) :=
  (C4_format_gate_frontend_only demoEnv).1 "abc" rfl

/-- Counterexample to C4 as stated: with the non-ten-digit code abc
stored as a key, the backend grants access — `/api/login` answers 200
with `success: true` and `/api/chat` proceeds to a 200 reply. -/
theorem C4_counterexample :
    isTenDigitCode "abc" = false ∧
    (handleLoginRequest abcLoginReq abcEnv).1.status = 200 ∧
    jsGet (handleLoginRequest abcLoginReq abcEnv).1.body "success" =
      .val (.bool true) ∧
    (handleChatRequest abcChatReq abcEnv okUpstream).1.status = 200 :=
  ⟨rfl, rfl, rfl, rfl⟩

end PaperG
